import Mathlib

/-!
Verification of the bank-account state machine in `src/BankAccount.py`.

Modelling choices (shallow embedding of the Python class `BankAccount`):

* Python `float` amounts and `datetime` timestamps are modelled as exact
  rationals (`ℚ`); timestamps are counted in seconds, `datetime.datetime.now()`
  becomes an explicit `now` argument supplied by the caller (the injectable
  Clock of the design), and `(now - last).total_seconds()` becomes rational
  subtraction.
* Python exceptions become the inductive `BankError`.  `ValueError` — raised
  both for a negative initial balance at construction and for a non-positive
  amount in `deposit`/`withdraw` (the spec's `InvalidInitialBalance` and
  `InvalidAmount`) — is `BankError.valueError`.
* The Python object is mutated in place, so an operation that raises an
  exception after having already mutated a field leaves that mutation behind.
  Each guarded operation therefore returns an `OpResult`: the account state at
  the moment the operation returned or raised, the list of reactivation
  notifications emitted so far (`_trigger_reactivation_action` notifies with
  the holder's name), and the error, if one was raised.
* `print` logging other than the reactivation notification is ignored, as the
  design notes direct.
-/

namespace Bank

/-- The exceptions of `src/BankAccount.py` that the operations can raise.
`valueError` is Python's `ValueError` (negative initial balance, or
non-positive amount — the spec's `InvalidInitialBalance` / `InvalidAmount`). -/
inductive BankError where
  | valueError
  | insufficientFunds
  | accountClosed
  | verificationRequired
  deriving DecidableEq, Repr

/-- The mutable state of a `BankAccount` object: fields `_balance`,
`_account_holder`, `_is_active`, `_is_closed`, `_last_activity_time`. -/
structure BankAccount where
  balance : ℚ
  account_holder : String
  is_active : Bool
  is_closed : Bool
  last_activity_time : ℚ
  deriving DecidableEq, Repr

/-- Class constant `INACTIVITY_PERIOD_SECONDS = 10` (the 30-day value
`30 * 24 * 60 * 60` appears only in a comment in the source). -/
def INACTIVITY_PERIOD_SECONDS : ℚ := 10

/-- `BankAccount.__init__(initial_balance=0.0, account_holder="Unknown")`:
raises `ValueError` when `initial_balance < 0`, otherwise creates an active,
non-closed account whose last-activity time is the construction time. -/
def mkBankAccount (initial_balance : ℚ) (account_holder : String) (now : ℚ) :
    Except BankError BankAccount :=
  if initial_balance < 0 then .error .valueError
  else .ok { balance := initial_balance
             account_holder := account_holder
             is_active := true
             is_closed := false
             last_activity_time := now }

/-- Result of one guarded operation: the account state when the call returned
or raised, the reactivation notifications emitted, and the raised error if
any.  (Python mutates in place, so the state is meaningful also on error.) -/
structure OpResult where
  account : BankAccount
  notified : List String
  error : Option BankError
  deriving DecidableEq, Repr

/-- `BankAccount._reactivate`: sets `_is_active = True` and triggers the
reactivation action (notifying with the holder's name) when the account is
neither active nor closed; otherwise does nothing. -/
def reactivate (a : BankAccount) : BankAccount × List String :=
  if !a.is_active && !a.is_closed then
    ({ a with is_active := true }, [a.account_holder])
  else (a, [])

/-- `BankAccount._check_status_for_operation`: raises `AccountClosedError`
when closed; reactivates when inactive. -/
def check_status_for_operation (a : BankAccount) :
    BankAccount × List String × Option BankError :=
  if a.is_closed then (a, [], some .accountClosed)
  else if !a.is_active then
    ((reactivate a).1, (reactivate a).2, none)
  else (a, [], none)

/-- `BankAccount.deposit(amount)`: raises `ValueError` when `amount <= 0`,
then runs the status check (which may raise `AccountClosedError` or
reactivate), then adds `amount` to the balance and updates the activity
time. -/
def deposit (a : BankAccount) (amount : ℚ) (now : ℚ) : OpResult :=
  if amount ≤ 0 then ⟨a, [], some .valueError⟩
  else
    match check_status_for_operation a with
    | (a1, ns, some e) => ⟨a1, ns, some e⟩
    | (a1, ns, none) =>
        ⟨{ a1 with balance := a1.balance + amount, last_activity_time := now },
         ns, none⟩

/-- `BankAccount.withdraw(amount, is_verified=False)`: raises `ValueError`
when `amount <= 0`, then `VerificationRequiredError` when unverified, then
runs the status check (which may raise `AccountClosedError` or reactivate),
then raises `InsufficientFundsError` when `amount > balance`, and otherwise
subtracts `amount` and updates the activity time. -/
def withdraw (a : BankAccount) (amount : ℚ) (is_verified : Bool) (now : ℚ) :
    OpResult :=
  if amount ≤ 0 then ⟨a, [], some .valueError⟩
  else if !is_verified then ⟨a, [], some .verificationRequired⟩
  else
    match check_status_for_operation a with
    | (a1, ns, some e) => ⟨a1, ns, some e⟩
    | (a1, ns, none) =>
        if amount > a1.balance then ⟨a1, ns, some .insufficientFunds⟩
        else
          ⟨{ a1 with balance := a1.balance - amount, last_activity_time := now },
           ns, none⟩

/-- `BankAccount.close_account()`: no-op when already closed, otherwise sets
`_is_closed = True` and `_is_active = False`.  Never raises, never touches
the balance or the activity time. -/
def close_account (a : BankAccount) : BankAccount :=
  if a.is_closed then a
  else { a with is_closed := true, is_active := false }

/-- `BankAccount._deactivate`: sets `_is_active = False` when active and not
closed. -/
def deactivate (a : BankAccount) : BankAccount :=
  if a.is_active && !a.is_closed then { a with is_active := false } else a

/-- `BankAccount.check_for_deactivation()`: returns immediately when not
active or closed; deactivates when the time since the last activity strictly
exceeds `INACTIVITY_PERIOD_SECONDS`.  Never updates `_last_activity_time`. -/
def check_for_deactivation (a : BankAccount) (now : ℚ) : BankAccount :=
  if !a.is_active || a.is_closed then a
  else if now - a.last_activity_time > INACTIVITY_PERIOD_SECONDS then
    deactivate a
  else a

/-- `BankAccount.force_deactivate()` (public test helper): sets
`_is_active = False` whenever the account is not closed. -/
def force_deactivate (a : BankAccount) : BankAccount :=
  if !a.is_closed then { a with is_active := false } else a

/-- `BankAccount.set_last_activity_time(dt)` (public test helper): overwrites
`_last_activity_time`.  (The `datetime` type check cannot fail in the
embedding, where every timestamp is a rational.) -/
def set_last_activity_time (a : BankAccount) (dt : ℚ) : BankAccount :=
  { a with last_activity_time := dt }

/-- One public operation on an account, with the clock reading(s) it uses. -/
inductive Op where
  | deposit (amount now : ℚ)
  | withdraw (amount : ℚ) (is_verified : Bool) (now : ℚ)
  | closeAccount
  | checkForDeactivation (now : ℚ)
  | forceDeactivate
  | setLastActivityTime (dt : ℚ)
  deriving DecidableEq

/-- Apply one public operation.  The operations that cannot raise are wrapped
into an `OpResult` with no notifications and no error. -/
def applyOp (a : BankAccount) : Op → OpResult
  | .deposit amount now => deposit a amount now
  | .withdraw amount v now => withdraw a amount v now
  | .closeAccount => ⟨close_account a, [], none⟩
  | .checkForDeactivation now => ⟨check_for_deactivation a now, [], none⟩
  | .forceDeactivate => ⟨force_deactivate a, [], none⟩
  | .setLastActivityTime dt => ⟨set_last_activity_time a dt, [], none⟩

/-- Run a sequence of public operations, keeping the final state (errors are
swallowed: the Python object survives every failed call). -/
def runOps (a : BankAccount) : List Op → BankAccount
  | [] => a
  | op :: ops => runOps (applyOp a op).account ops

/-- Whether an operation is one of the two public methods that deactivate:
`check_for_deactivation` or the test helper `force_deactivate`. -/
def Op.isDeactivationOp : Op → Bool
  | .checkForDeactivation _ => true
  | .forceDeactivate => true
  | _ => false

/-- A concrete active account (the scenario account of the spec). -/
def accA : BankAccount :=
  { balance := 100, account_holder := "Saka", is_active := true,
    is_closed := false, last_activity_time := 0 }

/-- A concrete inactive (not closed) account. -/
def accI : BankAccount :=
  { balance := 100, account_holder := "Saka", is_active := false,
    is_closed := false, last_activity_time := 0 }

/-- A concrete closed account. -/
def accC : BankAccount :=
  { balance := 100, account_holder := "Saka", is_active := false,
    is_closed := true, last_activity_time := 0 }

/-! ### Shape lemmas: the exact result of each branch of the guarded
operations, keyed by the guards of the Python source. -/

theorem check_status_of_closed (a : BankAccount) (hcl : a.is_closed = true) :
    check_status_for_operation a = (a, [], some .accountClosed) := by
  simp [check_status_for_operation, hcl]

theorem check_status_of_active (a : BankAccount) (hcl : a.is_closed = false)
    (hact : a.is_active = true) :
    check_status_for_operation a = (a, [], none) := by
  simp [check_status_for_operation, hcl, hact]

theorem check_status_of_inactive (a : BankAccount) (hcl : a.is_closed = false)
    (hact : a.is_active = false) :
    check_status_for_operation a =
      ({ a with is_active := true }, [a.account_holder], none) := by
  simp [check_status_for_operation, reactivate, hcl, hact]

theorem deposit_of_nonpos (a : BankAccount) (amount now : ℚ) (h : amount ≤ 0) :
    deposit a amount now = ⟨a, [], some .valueError⟩ := by
  simp [deposit, h]

theorem deposit_of_closed (a : BankAccount) (amount now : ℚ)
    (hpos : 0 < amount) (hcl : a.is_closed = true) :
    deposit a amount now = ⟨a, [], some .accountClosed⟩ := by
  simp [deposit, not_le.mpr hpos, check_status_of_closed a hcl]

theorem deposit_of_active (a : BankAccount) (amount now : ℚ)
    (hpos : 0 < amount) (hcl : a.is_closed = false) (hact : a.is_active = true) :
    deposit a amount now =
      ⟨{ a with balance := a.balance + amount, last_activity_time := now },
       [], none⟩ := by
  simp [deposit, not_le.mpr hpos, check_status_of_active a hcl hact]

theorem deposit_of_inactive (a : BankAccount) (amount now : ℚ)
    (hpos : 0 < amount) (hcl : a.is_closed = false) (hact : a.is_active = false) :
    deposit a amount now =
      ⟨{ a with
          is_active := true
          balance := a.balance + amount
          last_activity_time := now },
       [a.account_holder], none⟩ := by
  simp [deposit, not_le.mpr hpos, check_status_of_inactive a hcl hact]

theorem withdraw_of_nonpos (a : BankAccount) (amount now : ℚ) (v : Bool)
    (h : amount ≤ 0) :
    withdraw a amount v now = ⟨a, [], some .valueError⟩ := by
  simp [withdraw, h]

theorem withdraw_of_unverified (a : BankAccount) (amount now : ℚ)
    (hpos : 0 < amount) :
    withdraw a amount false now = ⟨a, [], some .verificationRequired⟩ := by
  simp [withdraw, not_le.mpr hpos]

theorem withdraw_of_closed (a : BankAccount) (amount now : ℚ)
    (hpos : 0 < amount) (hcl : a.is_closed = true) :
    withdraw a amount true now = ⟨a, [], some .accountClosed⟩ := by
  simp [withdraw, not_le.mpr hpos, check_status_of_closed a hcl]

theorem withdraw_insufficient_of_active (a : BankAccount) (amount now : ℚ)
    (hpos : 0 < amount) (hcl : a.is_closed = false) (hact : a.is_active = true)
    (hfund : a.balance < amount) :
    withdraw a amount true now = ⟨a, [], some .insufficientFunds⟩ := by
  simp [withdraw, not_le.mpr hpos, check_status_of_active a hcl hact, hfund]

theorem withdraw_insufficient_of_inactive (a : BankAccount) (amount now : ℚ)
    (hpos : 0 < amount) (hcl : a.is_closed = false) (hact : a.is_active = false)
    (hfund : a.balance < amount) :
    withdraw a amount true now =
      ⟨{ a with is_active := true }, [a.account_holder],
       some .insufficientFunds⟩ := by
  simp [withdraw, not_le.mpr hpos, check_status_of_inactive a hcl hact, hfund]

theorem withdraw_success_of_active (a : BankAccount) (amount now : ℚ)
    (hpos : 0 < amount) (hcl : a.is_closed = false) (hact : a.is_active = true)
    (hfund : amount ≤ a.balance) :
    withdraw a amount true now =
      ⟨{ a with balance := a.balance - amount, last_activity_time := now },
       [], none⟩ := by
  simp [withdraw, not_le.mpr hpos, check_status_of_active a hcl hact,
    not_lt.mpr hfund]

theorem withdraw_success_of_inactive (a : BankAccount) (amount now : ℚ)
    (hpos : 0 < amount) (hcl : a.is_closed = false) (hact : a.is_active = false)
    (hfund : amount ≤ a.balance) :
    withdraw a amount true now =
      ⟨{ a with
          is_active := true
          balance := a.balance - amount
          last_activity_time := now },
       [a.account_holder], none⟩ := by
  simp [withdraw, not_le.mpr hpos, check_status_of_inactive a hcl hact,
    not_lt.mpr hfund]

/-! ### Step lemmas about the public operation list -/

theorem close_account_is_closed (a : BankAccount) :
    (close_account a).is_closed = true := by
  rw [close_account]
  split
  · next h => exact h
  · rfl

theorem applyOp_preserves_closed (a : BankAccount) (op : Op)
    (h : a.is_closed = true) :
    (applyOp a op).account.is_closed = true := by
  cases op with
  | deposit amount now =>
    rcases le_or_lt amount 0 with hle | hpos
    · simp only [applyOp, deposit_of_nonpos a amount now hle]; exact h
    · simp only [applyOp, deposit_of_closed a amount now hpos h]; exact h
  | withdraw amount v now =>
    rcases le_or_lt amount 0 with hle | hpos
    · simp only [applyOp, withdraw_of_nonpos a amount now v hle]; exact h
    · cases v with
      | false =>
        simp only [applyOp, withdraw_of_unverified a amount now hpos]; exact h
      | true =>
        simp only [applyOp, withdraw_of_closed a amount now hpos h]; exact h
  | closeAccount => simp [applyOp, close_account, h]
  | checkForDeactivation now => simp [applyOp, check_for_deactivation, h]
  | forceDeactivate => simp [applyOp, force_deactivate, h]
  | setLastActivityTime dt => simp [applyOp, set_last_activity_time, h]

theorem runOps_preserves_closed (a : BankAccount) (ops : List Op)
    (h : a.is_closed = true) : (runOps a ops).is_closed = true := by
  induction ops generalizing a with
  | nil => simp only [runOps]; exact h
  | cons op ops ih =>
    simp only [runOps]
    exact ih _ (applyOp_preserves_closed a op h)

theorem applyOp_balance_nonneg (a : BankAccount) (op : Op)
    (h : 0 ≤ a.balance) : 0 ≤ (applyOp a op).account.balance := by
  cases op with
  | deposit amount now =>
    rcases le_or_lt amount 0 with hle | hpos
    · simp only [applyOp, deposit_of_nonpos a amount now hle]; exact h
    · cases hcl : a.is_closed with
      | true => simp only [applyOp, deposit_of_closed a amount now hpos hcl]; exact h
      | false =>
        cases hact : a.is_active with
        | true =>
          simp only [applyOp, deposit_of_active a amount now hpos hcl hact]
          exact add_nonneg h hpos.le
        | false =>
          simp only [applyOp, deposit_of_inactive a amount now hpos hcl hact]
          exact add_nonneg h hpos.le
  | withdraw amount v now =>
    rcases le_or_lt amount 0 with hle | hpos
    · simp only [applyOp, withdraw_of_nonpos a amount now v hle]; exact h
    · cases v with
      | false =>
        simp only [applyOp, withdraw_of_unverified a amount now hpos]; exact h
      | true =>
        cases hcl : a.is_closed with
        | true =>
          simp only [applyOp, withdraw_of_closed a amount now hpos hcl]; exact h
        | false =>
          cases hact : a.is_active with
          | true =>
            rcases le_or_lt amount a.balance with hf | hf
            · simp only [applyOp,
                withdraw_success_of_active a amount now hpos hcl hact hf]
              exact sub_nonneg.mpr hf
            · simp only [applyOp,
                withdraw_insufficient_of_active a amount now hpos hcl hact hf]
              exact h
          | false =>
            rcases le_or_lt amount a.balance with hf | hf
            · simp only [applyOp,
                withdraw_success_of_inactive a amount now hpos hcl hact hf]
              exact sub_nonneg.mpr hf
            · simp only [applyOp,
                withdraw_insufficient_of_inactive a amount now hpos hcl hact hf]
              exact h
  | closeAccount =>
    simp only [applyOp, close_account]
    split <;> exact h
  | checkForDeactivation now =>
    simp only [applyOp, check_for_deactivation, deactivate]
    split
    · exact h
    · split
      · split <;> exact h
      · exact h
  | forceDeactivate =>
    simp only [applyOp, force_deactivate]
    split <;> exact h
  | setLastActivityTime dt =>
    simp only [applyOp, set_last_activity_time]; exact h

theorem runOps_balance_nonneg (a : BankAccount) (ops : List Op)
    (h : 0 ≤ a.balance) : 0 ≤ (runOps a ops).balance := by
  induction ops generalizing a with
  | nil => simp only [runOps]; exact h
  | cons op ops ih =>
    simp only [runOps]
    exact ih _ (applyOp_balance_nonneg a op h)

theorem applyOp_closed_imp_inactive (a : BankAccount) (op : Op)
    (h : a.is_closed = true → a.is_active = false) :
    (applyOp a op).account.is_closed = true →
      (applyOp a op).account.is_active = false := by
  cases op with
  | deposit amount now =>
    rcases le_or_lt amount 0 with hle | hpos
    · simp only [applyOp, deposit_of_nonpos a amount now hle]; exact h
    · cases hcl : a.is_closed with
      | true => simp only [applyOp, deposit_of_closed a amount now hpos hcl]; exact h
      | false =>
        cases hact : a.is_active with
        | true =>
          simp only [applyOp, deposit_of_active a amount now hpos hcl hact]
          intro hh; simp [hcl] at hh
        | false =>
          simp only [applyOp, deposit_of_inactive a amount now hpos hcl hact]
          intro hh; simp [hcl] at hh
  | withdraw amount v now =>
    rcases le_or_lt amount 0 with hle | hpos
    · simp only [applyOp, withdraw_of_nonpos a amount now v hle]; exact h
    · cases v with
      | false =>
        simp only [applyOp, withdraw_of_unverified a amount now hpos]; exact h
      | true =>
        cases hcl : a.is_closed with
        | true =>
          simp only [applyOp, withdraw_of_closed a amount now hpos hcl]; exact h
        | false =>
          cases hact : a.is_active with
          | true =>
            rcases le_or_lt amount a.balance with hf | hf
            · simp only [applyOp,
                withdraw_success_of_active a amount now hpos hcl hact hf]
              intro hh; simp [hcl] at hh
            · simp only [applyOp,
                withdraw_insufficient_of_active a amount now hpos hcl hact hf]
              exact h
          | false =>
            rcases le_or_lt amount a.balance with hf | hf
            · simp only [applyOp,
                withdraw_success_of_inactive a amount now hpos hcl hact hf]
              intro hh; simp [hcl] at hh
            · simp only [applyOp,
                withdraw_insufficient_of_inactive a amount now hpos hcl hact hf]
              intro hh; simp [hcl] at hh
  | closeAccount =>
    simp only [applyOp, close_account]
    split
    · exact h
    · intro _; rfl
  | checkForDeactivation now =>
    simp only [applyOp, check_for_deactivation, deactivate]
    split
    · exact h
    · split
      · split
        · intro _; rfl
        · exact h
      · exact h
  | forceDeactivate =>
    simp only [applyOp, force_deactivate]
    split
    · intro _; rfl
    · exact h
  | setLastActivityTime dt =>
    simp only [applyOp, set_last_activity_time]; exact h

theorem runOps_closed_imp_inactive (a : BankAccount) (ops : List Op)
    (h : a.is_closed = true → a.is_active = false) :
    (runOps a ops).is_closed = true → (runOps a ops).is_active = false := by
  induction ops generalizing a with
  | nil => simp only [runOps]; exact h
  | cons op ops ih =>
    simp only [runOps]
    exact ih _ (applyOp_closed_imp_inactive a op h)

/-! ### Claim theorems -/

/-- C2: a withdrawal of a positive amount with `is_verified = false` fails
with `VerificationRequired` whatever the account's status (Active, Inactive
or Closed) and whatever its balance, and leaves the account unchanged with no
notification: the verification gate comes before any state inspection. -/
theorem withdraw_unverified_fails (a : BankAccount) (amount now : ℚ)
    (hpos : 0 < amount) :
    withdraw a amount false now = ⟨a, [], some .verificationRequired⟩ :=
  withdraw_of_unverified a amount now hpos

/-- Witness for C2, on a closed account (the hardest case the claim names). -/
theorem withdraw_unverified_fails_witness :
    (0:ℚ) < 5 ∧ withdraw accC 5 false 7 = ⟨accC, [], some .verificationRequired⟩ :=
  ⟨by decide, withdraw_unverified_fails accC 5 7 (by decide)⟩

/-- C3: depositing a positive amount on a non-closed account succeeds,
adds the amount to the balance and sets the last-activity time to the call
time; depositing a non-positive amount fails with `InvalidAmount`
(`ValueError`) and changes nothing. -/
theorem deposit_contract (a : BankAccount) (amount now : ℚ) :
    (0 < amount → a.is_closed = false →
      (deposit a amount now).error = none ∧
      (deposit a amount now).account.balance = a.balance + amount ∧
      (deposit a amount now).account.last_activity_time = now) ∧
    (amount ≤ 0 → deposit a amount now = ⟨a, [], some .valueError⟩) := by
  constructor
  · intro hpos hcl
    cases hact : a.is_active with
    | true => simp [deposit_of_active a amount now hpos hcl hact]
    | false => simp [deposit_of_inactive a amount now hpos hcl hact]
  · intro hle
    exact deposit_of_nonpos a amount now hle

/-- Witness for C3: a valid deposit on the scenario account, and a zero
deposit. -/
theorem deposit_contract_witness :
    ((deposit accA 50 7).error = none ∧
     (deposit accA 50 7).account.balance = accA.balance + 50 ∧
     (deposit accA 50 7).account.last_activity_time = 7) ∧
    deposit accA 0 7 = ⟨accA, [], some .valueError⟩ :=
  ⟨(deposit_contract accA 50 7).1 (by decide) (by decide),
   (deposit_contract accA 0 7).2 (by decide)⟩

/-- C7: depositing a positive amount on an Inactive, non-closed account first
reactivates it (status becomes Active and the notifier fires exactly once,
with the holder's name), then applies the deposit: the balance increases by
the amount and the activity time is updated. -/
theorem deposit_reactivation_contract (a : BankAccount) (amount now : ℚ)
    (hpos : 0 < amount) (hact : a.is_active = false) (hcl : a.is_closed = false) :
    deposit a amount now =
      ⟨{ a with
          is_active := true
          balance := a.balance + amount
          last_activity_time := now },
       [a.account_holder], none⟩ :=
  deposit_of_inactive a amount now hpos hcl hact

/-- Witness for C7: `deposit(10)` on a concrete inactive account, the
spec's own example. -/
theorem deposit_reactivation_contract_witness :
    (0:ℚ) < 10 ∧ accI.is_active = false ∧ accI.is_closed = false ∧
    deposit accI 10 7 =
      ⟨{ accI with
          is_active := true
          balance := accI.balance + 10
          last_activity_time := 7 },
       [accI.account_holder], none⟩ :=
  ⟨by decide, by decide, by decide,
   deposit_reactivation_contract accI 10 7 (by decide) (by decide) (by decide)⟩

/-- C6: `check_for_deactivation` on an Active, non-closed account deactivates
exactly when the elapsed time strictly exceeds the inactivity period; it is
the identity when the account is already Inactive or Closed; it never changes
the last-activity time; and concretely, with the period of 10, elapsed time
11 deactivates while elapsed time 9 does not. -/
theorem check_for_deactivation_contract (a : BankAccount) (now : ℚ) :
    (a.is_active = true → a.is_closed = false →
      check_for_deactivation a now =
        (if INACTIVITY_PERIOD_SECONDS < now - a.last_activity_time then
          { a with is_active := false } else a)) ∧
    ((a.is_active = false ∨ a.is_closed = true) →
      check_for_deactivation a now = a) ∧
    (check_for_deactivation a now).last_activity_time = a.last_activity_time ∧
    (check_for_deactivation accA 11).is_active = false ∧
    check_for_deactivation { accA with last_activity_time := 2 } 11 =
      { accA with last_activity_time := 2 } := by
  refine ⟨?_, ?_, ?_, ?_, ?_⟩
  · intro hact hcl
    simp [check_for_deactivation, deactivate, hact, hcl]
  · rintro (hact | hcl)
    · simp [check_for_deactivation, hact]
    · simp [check_for_deactivation, hcl]
  · cases hact : a.is_active with
    | false => simp [check_for_deactivation, hact]
    | true =>
      cases hcl : a.is_closed with
      | true => simp [check_for_deactivation, hcl]
      | false =>
        simp [check_for_deactivation, deactivate, hact, hcl]
        split <;> rfl
  · norm_num [check_for_deactivation, accA, deactivate, INACTIVITY_PERIOD_SECONDS]
  · norm_num [check_for_deactivation, accA, deactivate, INACTIVITY_PERIOD_SECONDS]

/-- Witness for C6: applying the general parts at a concrete account. -/
theorem check_for_deactivation_contract_witness :
    accA.is_active = true ∧ accA.is_closed = false ∧
    check_for_deactivation accA 11 =
      (if INACTIVITY_PERIOD_SECONDS < 11 - accA.last_activity_time then
        { accA with is_active := false } else accA) ∧
    check_for_deactivation accI 11 = accI :=
  ⟨by decide, by decide,
   (check_for_deactivation_contract accA 11).1 (by decide) (by decide),
   (check_for_deactivation_contract accI 11).2.1 (Or.inl (by decide))⟩

/-- C9 counterexample: the inactivity period in force is the shared class
constant `INACTIVITY_PERIOD_SECONDS = 10` seconds, not a value corresponding
to 30 days (`30 * 24 * 60 * 60` seconds, present only in a source comment);
the constructor takes no inactivity-period argument at all. -/
theorem inactivity_period_not_thirty_days_cex :
    INACTIVITY_PERIOD_SECONDS = 10 ∧
    INACTIVITY_PERIOD_SECONDS ≠ 30 * 24 * 60 * 60 := by
  constructor
  · rfl
  · norm_num [INACTIVITY_PERIOD_SECONDS]

/-- C9 (amended): the inactivity period is the class-wide constant
`INACTIVITY_PERIOD_SECONDS = 10`, shared by every account instance: the
deactivation threshold of every Active, non-closed account is this constant,
independently of how the account was constructed. -/
theorem inactivity_period_constant (a : BankAccount) (now : ℚ)
    (hact : a.is_active = true) (hcl : a.is_closed = false) :
    INACTIVITY_PERIOD_SECONDS = 10 ∧
    ((check_for_deactivation a now).is_active = false ↔
      INACTIVITY_PERIOD_SECONDS < now - a.last_activity_time) := by
  refine ⟨rfl, ?_⟩
  simp [check_for_deactivation, deactivate, hact, hcl]
  split <;> simp [hact, *]

/-- Witness for C9's amended theorem, at a concrete active account. -/
theorem inactivity_period_constant_witness :
    accA.is_active = true ∧ accA.is_closed = false ∧
    (INACTIVITY_PERIOD_SECONDS = 10 ∧
     ((check_for_deactivation accA 11).is_active = false ↔
       INACTIVITY_PERIOD_SECONDS < 11 - accA.last_activity_time)) :=
  ⟨by decide, by decide, inactivity_period_constant accA 11 (by decide) (by decide)⟩

/-- C1 counterexample: a verified withdrawal of 200 from an Inactive account
holding 100 fails with `InsufficientFunds`, yet the account has been
reactivated (status moved Inactive to Active) and the notifier has fired:
the failure is not free of mutation, contrary to the claim. -/
theorem withdraw_partial_mutation_cex :
    (withdraw accI 200 true 5).error = some BankError.insufficientFunds ∧
    accI.is_active = false ∧
    (withdraw accI 200 true 5).account.is_active = true ∧
    (withdraw accI 200 true 5).notified = ["Saka"] := by
  decide

/-- C1 (amended): construction, deposit, `close_account` and
`check_for_deactivation` never leave a partial mutation behind on failure,
and a failing withdraw leaves balance, closed flag and activity time intact;
but a withdraw that fails with `InsufficientFunds` on an Inactive account has
already performed the reactivation (the account ends Active and the notifier
has fired once) — only that mutation survives the failure. -/
theorem op_failure_state (a : BankAccount) (amount now init : ℚ) (v : Bool)
    (holder : String) :
    (init < 0 → mkBankAccount init holder now = .error .valueError) ∧
    (∀ e, (deposit a amount now).error = some e →
      (deposit a amount now).account = a ∧ (deposit a amount now).notified = []) ∧
    (∀ e, (withdraw a amount v now).error = some e → e ≠ .insufficientFunds →
      (withdraw a amount v now).account = a ∧
      (withdraw a amount v now).notified = []) ∧
    ((withdraw a amount v now).error = some .insufficientFunds →
      (withdraw a amount v now).account.balance = a.balance ∧
      (withdraw a amount v now).account.last_activity_time = a.last_activity_time ∧
      (withdraw a amount v now).account.is_closed = a.is_closed ∧
      (if a.is_active = true then
        (withdraw a amount v now).account = a ∧
        (withdraw a amount v now).notified = []
      else
        (withdraw a amount v now).account = { a with is_active := true } ∧
        (withdraw a amount v now).notified = [a.account_holder])) := by
  refine ⟨?_, ?_, ?_, ?_⟩
  · intro hneg; simp [mkBankAccount, hneg]
  · intro e he
    rcases le_or_lt amount 0 with hle | hpos
    · simp [deposit_of_nonpos a amount now hle]
    · cases hcl : a.is_closed with
      | true => simp [deposit_of_closed a amount now hpos hcl]
      | false =>
        cases hact : a.is_active with
        | true => simp [deposit_of_active a amount now hpos hcl hact] at he
        | false => simp [deposit_of_inactive a amount now hpos hcl hact] at he
  · intro e he hne
    rcases le_or_lt amount 0 with hle | hpos
    · simp [withdraw_of_nonpos a amount now v hle]
    · cases v with
      | false => simp [withdraw_of_unverified a amount now hpos]
      | true =>
        cases hcl : a.is_closed with
        | true => simp [withdraw_of_closed a amount now hpos hcl]
        | false =>
          cases hact : a.is_active with
          | true =>
            rcases le_or_lt amount a.balance with hf | hf
            · simp [withdraw_success_of_active a amount now hpos hcl hact hf] at he
            · simp [withdraw_insufficient_of_active a amount now hpos hcl hact hf] at he
              exact absurd he.symm hne
          | false =>
            rcases le_or_lt amount a.balance with hf | hf
            · simp [withdraw_success_of_inactive a amount now hpos hcl hact hf] at he
            · simp [withdraw_insufficient_of_inactive a amount now hpos hcl hact hf] at he
              exact absurd he.symm hne
  · intro he
    rcases le_or_lt amount 0 with hle | hpos
    · simp [withdraw_of_nonpos a amount now v hle] at he
    · cases v with
      | false => simp [withdraw_of_unverified a amount now hpos] at he
      | true =>
        cases hcl : a.is_closed with
        | true => simp [withdraw_of_closed a amount now hpos hcl] at he
        | false =>
          cases hact : a.is_active with
          | true =>
            rcases le_or_lt amount a.balance with hf | hf
            · simp [withdraw_success_of_active a amount now hpos hcl hact hf] at he
            · simp [withdraw_insufficient_of_active a amount now hpos hcl hact hf,
                hact, hcl]
          | false =>
            rcases le_or_lt amount a.balance with hf | hf
            · simp [withdraw_success_of_inactive a amount now hpos hcl hact hf] at he
            · simp [withdraw_insufficient_of_inactive a amount now hpos hcl hact hf,
                hact, hcl]

/-- Witness for C1's amended theorem: a deposit failing on a closed account
leaves it untouched; the insufficient-funds withdrawal on a concrete inactive
account ends with the account reactivated and notified. -/
theorem op_failure_state_witness :
    ((deposit accC 5 3).account = accC ∧ (deposit accC 5 3).notified = []) ∧
    ((withdraw accI 200 true 5).account.balance = accI.balance ∧
     (withdraw accI 200 true 5).account.last_activity_time =
       accI.last_activity_time ∧
     (withdraw accI 200 true 5).account.is_closed = accI.is_closed ∧
     (if accI.is_active = true then
       (withdraw accI 200 true 5).account = accI ∧
       (withdraw accI 200 true 5).notified = []
     else
       (withdraw accI 200 true 5).account = { accI with is_active := true } ∧
       (withdraw accI 200 true 5).notified = [accI.account_holder])) :=
  ⟨(op_failure_state accC 5 3 0 true "x").2.1 BankError.accountClosed (by decide),
   (op_failure_state accI 200 5 0 true "x").2.2.2 (by decide)⟩

/-- C4: the balance is never negative: construction fails on a negative
initial balance; an account built by the constructor keeps a non-negative
balance under every sequence of public operations; and a successful withdraw
requires the amount not to exceed the balance. -/
theorem balance_nonneg_invariant (initial_balance now0 amount now : ℚ)
    (holder : String) (a b : BankAccount) (ops : List Op) (v : Bool) :
    (initial_balance < 0 →
      mkBankAccount initial_balance holder now0 = .error .valueError) ∧
    (mkBankAccount initial_balance holder now0 = .ok a →
      0 ≤ (runOps a ops).balance) ∧
    ((withdraw b amount v now).error = none → amount ≤ b.balance) := by
  refine ⟨?_, ?_, ?_⟩
  · intro hneg; simp [mkBankAccount, hneg]
  · intro hmk
    by_cases hb : initial_balance < 0
    · rw [mkBankAccount, if_pos hb] at hmk; cases hmk
    · rw [mkBankAccount, if_neg hb] at hmk
      cases hmk
      exact runOps_balance_nonneg _ ops (not_lt.mp hb)
  · intro he
    rcases le_or_lt amount 0 with hle | hpos
    · simp [withdraw_of_nonpos b amount now v hle] at he
    · cases v with
      | false => simp [withdraw_of_unverified b amount now hpos] at he
      | true =>
        cases hcl : b.is_closed with
        | true => simp [withdraw_of_closed b amount now hpos hcl] at he
        | false =>
          cases hact : b.is_active with
          | true =>
            rcases le_or_lt amount b.balance with hf | hf
            · exact hf
            · simp [withdraw_insufficient_of_active b amount now hpos hcl hact hf]
                at he
          | false =>
            rcases le_or_lt amount b.balance with hf | hf
            · exact hf
            · simp [withdraw_insufficient_of_inactive b amount now hpos hcl hact hf]
                at he

/-- Witness for C4: a rejected negative construction, a concrete operation
sequence from the constructed scenario account, and a successful concrete
withdrawal. -/
theorem balance_nonneg_invariant_witness :
    mkBankAccount (-5) "Saka" 0 = .error .valueError ∧
    0 ≤ (runOps accA [Op.deposit 50 1, Op.withdraw 30 true 2]).balance ∧
    30 ≤ accA.balance :=
  ⟨(balance_nonneg_invariant (-5) 0 30 2 "Saka" accA accA [] true).1 (by decide),
   (balance_nonneg_invariant 100 0 30 2 "Saka" accA accA
      [Op.deposit 50 1, Op.withdraw 30 true 2] true).2.1 rfl,
   (balance_nonneg_invariant 100 0 30 2 "Saka" accA accA [] true).2.2 (by decide)⟩

/-- C5: Closed is terminal: after `close_account` the account stays closed
under every sequence of public operations; on a closed account every deposit
and every verified withdrawal of a positive amount fails with
`AccountClosed` and changes nothing; closing again is a no-op. -/
theorem closed_terminal (a : BankAccount) (ops : List Op) (amount now : ℚ) :
    (runOps (close_account a) ops).is_closed = true ∧
    (0 < amount → a.is_closed = true →
      deposit a amount now = ⟨a, [], some .accountClosed⟩ ∧
      withdraw a amount true now = ⟨a, [], some .accountClosed⟩) ∧
    close_account (close_account a) = close_account a := by
  refine ⟨?_, ?_, ?_⟩
  · exact runOps_preserves_closed _ ops (close_account_is_closed a)
  · intro hpos hcl
    exact ⟨deposit_of_closed a amount now hpos hcl,
      withdraw_of_closed a amount now hpos hcl⟩
  · conv_lhs => rw [close_account]
    rw [if_pos (close_account_is_closed a)]

/-- Witness for C5: a concrete closed account rejects a deposit and a
verified withdrawal, and closing is idempotent. -/
theorem closed_terminal_witness :
    (runOps (close_account accA) [Op.deposit 5 1, Op.forceDeactivate]).is_closed
      = true ∧
    (deposit accC 6 3 = ⟨accC, [], some .accountClosed⟩ ∧
     withdraw accC 6 true 3 = ⟨accC, [], some .accountClosed⟩) ∧
    close_account (close_account accA) = close_account accA :=
  ⟨(closed_terminal accA [Op.deposit 5 1, Op.forceDeactivate] 6 3).1,
   (closed_terminal accC [] 6 3).2.1 (by decide) (by decide),
   (closed_terminal accA [] 6 3).2.2⟩

/-- C8 counterexample: `force_deactivate` is a public method (no underscore
prefix in the source) other than `check_for_deactivation`, and it moves a
concrete Active account to Inactive. -/
theorem force_deactivate_public_cex :
    accA.is_active = true ∧ accA.is_closed = false ∧
    (force_deactivate accA).is_active = false ∧
    (force_deactivate accA).is_closed = false := by
  decide

/-- C8 (amended): an operation can only end in status Inactive (not active,
not closed) if the account was already Inactive, or if it was Active and the
operation was one of the two deactivating public methods —
`check_for_deactivation` or the test helper `force_deactivate`; in
particular no failed deposit or withdraw moves Active to Inactive. -/
theorem inactive_only_via_deactivation (a : BankAccount) (op : Op)
    (h1 : (applyOp a op).account.is_active = false)
    (h2 : (applyOp a op).account.is_closed = false) :
    (a.is_active = false ∧ a.is_closed = false) ∨
    (a.is_active = true ∧ a.is_closed = false ∧ op.isDeactivationOp = true) := by
  cases hcl : a.is_closed with
  | true =>
    have hc := applyOp_preserves_closed a op hcl
    rw [h2] at hc
    exact absurd hc (by decide)
  | false =>
    cases hact : a.is_active with
    | false => exact Or.inl ⟨rfl, rfl⟩
    | true =>
      refine Or.inr ⟨rfl, rfl, ?_⟩
      cases op with
      | deposit amount now =>
        rcases le_or_lt amount 0 with hle | hpos
        · simp [applyOp, deposit_of_nonpos a amount now hle, hact] at h1
        · simp [applyOp, deposit_of_active a amount now hpos hcl hact, hact] at h1
      | withdraw amount v now =>
        rcases le_or_lt amount 0 with hle | hpos
        · simp [applyOp, withdraw_of_nonpos a amount now v hle, hact] at h1
        · cases v with
          | false =>
            simp [applyOp, withdraw_of_unverified a amount now hpos, hact] at h1
          | true =>
            rcases le_or_lt amount a.balance with hf | hf
            · simp [applyOp,
                withdraw_success_of_active a amount now hpos hcl hact hf, hact] at h1
            · simp [applyOp,
                withdraw_insufficient_of_active a amount now hpos hcl hact hf,
                hact] at h1
      | closeAccount =>
        have hc := close_account_is_closed a
        simp only [applyOp] at h2
        rw [h2] at hc
        exact absurd hc (by decide)
      | checkForDeactivation now => rfl
      | forceDeactivate => rfl
      | setLastActivityTime dt =>
        simp [applyOp, set_last_activity_time, hact] at h1

/-- Witness for C8's amended theorem, at a concrete Active account and the
`force_deactivate` operation. -/
theorem inactive_only_via_deactivation_witness :
    (accA.is_active = false ∧ accA.is_closed = false) ∨
    (accA.is_active = true ∧ accA.is_closed = false ∧
      (Op.forceDeactivate).isDeactivationOp = true) :=
  inactive_only_via_deactivation accA Op.forceDeactivate (by decide) (by decide)

/-- C10: in every state reachable from the constructor by public operations,
a closed account is not active: `close_account` clears the active flag and
reactivation is guarded by the closed flag. -/
theorem closed_implies_not_active (initial_balance now0 : ℚ) (holder : String)
    (a : BankAccount) (ops : List Op)
    (hmk : mkBankAccount initial_balance holder now0 = .ok a) :
    (runOps a ops).is_closed = true → (runOps a ops).is_active = false := by
  have h0 : a.is_closed = true → a.is_active = false := by
    by_cases hb : initial_balance < 0
    · rw [mkBankAccount, if_pos hb] at hmk; cases hmk
    · rw [mkBankAccount, if_neg hb] at hmk
      cases hmk
      intro hh
      simp at hh
  exact runOps_closed_imp_inactive a ops h0

/-- Witness for C10: closing the concrete scenario account leaves it
closed and not active. -/
theorem closed_implies_not_active_witness :
    (runOps accA [Op.closeAccount]).is_active = false :=
  closed_implies_not_active 100 0 "Saka" accA [Op.closeAccount] rfl (by decide)

end Bank
